import Mathlib

/-!
Shallow embedding of the appointment-scheduling core of the
`manicure-backend` repository (FastAPI + SQLAlchemy), covering
`app/services/appointments.py`, `app/api/routes/appointments.py`,
`app/utils.make_naive` and the ORM models in `app/models/`.

Modelling conventions:
* `datetime` values are modelled at one-minute resolution as a wall-clock
  reading (`wall`, minutes since an arbitrary epoch) plus an optional
  timezone offset in minutes (`none` = naive).  All durations in the source
  are integer minutes and the cancellation lead time is a whole number of
  hours, so minute resolution loses nothing the claims mention.
* The database is a `Store` record of lists of rows.  SQL comparisons on a
  `DateTime` column compare the stored timestamp literally, so in the model
  they compare the `wall` field of whatever was stored, without timezone
  conversion.
* `HTTPException`s raised by the service layer become `Except ApiError`
  results; the detail strings are mapped to `ApiError` constructors.
* Async/session mechanics (`await`, `commit`, `refresh`) disappear: a
  request is a pure function from the store (plus the fresh ids and the
  current time the runtime would supply) to an error or an updated store.
-/

/-- A Python `datetime` at one-minute resolution: wall-clock minutes plus an
optional UTC offset in minutes (`none` = naive datetime). -/
structure PyDateTime where
  wall : Int
  offset : Option Int
deriving Repr, DecidableEq

/-- Embedding of `app/utils.py::make_naive`: if the datetime is aware, convert to UTC
(`astimezone(timezone.utc)` subtracts the offset from the wall reading) and
drop the offset marker; a naive datetime is returned unchanged. -/
def make_naive (dt : PyDateTime) : PyDateTime :=
  match dt.offset with
  | some o => ⟨dt.wall - o, none⟩
  | none => dt

/-- Addition `dt + timedelta(minutes = m)`: shifts the wall reading, keeps the
offset marker. -/
def addMinutes (dt : PyDateTime) (m : Int) : PyDateTime :=
  ⟨dt.wall + m, dt.offset⟩

/-- Row of the `services` table (`app/models/service.py`).  `price` is a
`Float` column in the source; it is modelled as `Rat` and no claim uses it. -/
structure Service where
  id : Int
  name : String
  description : Option String
  duration : Int
  price : Rat
deriving Repr, DecidableEq

/-- Row of the `clients` table (`app/models/client.py`).  `user_id` is the
foreign key to `users.id` (unique, 1:1). -/
structure Client where
  id : Int
  user_id : Int
  name : String
  email : String
  phone : Option String
  address : Option String
  created_at : PyDateTime
  updated_at : PyDateTime
deriving Repr, DecidableEq

/-- The authenticated user as the routes see it (`app/schemas/users.py::
UserRead`, produced from a `users` row by `get_current_active_user`).
`id` is the id of the `users` row, `role` is `client`/`staff`/`admin`. -/
structure UserRead where
  id : Int
  email : String
  full_name : Option String
  is_active : Bool
  role : String
  created_at : PyDateTime
deriving Repr, DecidableEq

/-- Row of the `appointments` table (`app/models/appointment.py`) together
with its many-to-many association: `service_ids` is the set of `services.id`
values linked through the `appointment_services` join table. -/
structure Appointment where
  id : Int
  client_id : Int
  date : PyDateTime
  status : String
  created_at : PyDateTime
  updated_at : PyDateTime
  notes : Option String
  service_ids : List Int
deriving Repr, DecidableEq

/-- Row of the `cancelations` table (`app/models/cancelation.py`). -/
structure Cancelation where
  id : Int
  appointment_id : Int
  reason : String
  created_at : PyDateTime
deriving Repr, DecidableEq

/-- The backing store: one list of rows per table. -/
structure Store where
  clients : List Client
  services : List Service
  appointments : List Appointment
  cancelations : List Cancelation
deriving Repr, DecidableEq

/-- Embedding of `app/schemas/appointments.py::AppointmentCreate`. -/
structure AppointmentCreate where
  client_id : Int
  date : PyDateTime
  notes : Option String
  service_ids : List Int
deriving Repr, DecidableEq

/-- Embedding of `app/schemas/appointments.py::AppointmentUpdate` after
`model_dump(exclude_unset = True)`: `none` means the field was absent from
the patch.  For `notes` the inner `Option` is the column value (the column
is nullable); for the non-nullable columns an explicit JSON `null` is not
modelled, only provided values. -/
structure AppointmentUpdate where
  date : Option PyDateTime
  notes : Option (Option String)
  status : Option String
  service_ids : Option (List Int)
  cancelled : Option Bool
deriving Repr, DecidableEq

/-- Response item `BlockedSlot` of the `/appointments/blocked` route: a
start/end pair.  The class is referenced by the route but its declaration is
absent from the sources; the shape `{start, end}` is taken from the route's
constructor call and the spec. -/
structure BlockedSlot where
  start : PyDateTime
  stop : PyDateTime
deriving Repr, DecidableEq

/-- The `HTTPException`s the appointment endpoints raise, keyed by status
code and detail string. -/
inductive ApiError where
  /-- HTTP 404 "Client not found" -/
  | notFoundClient
  /-- HTTP 400 "At least one service must be selected" -/
  | invalidArgumentNoServices
  /-- HTTP 404 "One or more services not found" -/
  | notFoundServices
  /-- HTTP 400 "This time slot is not available due to another appointment." -/
  | slotUnavailable
  /-- HTTP 404 "Appointment not found" -/
  | notFoundAppointment
  /-- HTTP 403 "Not authorized to update/delete/cancel this appointment" -/
  | forbidden
  /-- HTTP 400 "Appointment is already cancelled" -/
  | alreadyCancelled
  /-- HTTP 400 "Cannot cancel appointment less than 3 hours before the scheduled time" -/
  | tooLateToCancel
  /-- HTTP 400 "Appointment is already completed" -/
  | alreadyCompleted
  /-- HTTP 400 "Cannot complete a cancelled appointment" -/
  | cannotCompleteCancelled
deriving Repr, DecidableEq

/-- Embedding of `select(Service).filter(Service.id.in_(ids))`: the table rows whose id
is in `ids`, each row once, in table order (duplicates in `ids` do not
duplicate rows). -/
def servicesByIds (s : Store) (ids : List Int) : List Service :=
  s.services.filter (fun sv => ids.contains sv.id)

/-- The services associated to an appointment through the join table, as
rows of the `services` table. -/
def appointmentServices (s : Store) (a : Appointment) : List Service :=
  servicesByIds s a.service_ids

/-- Sum of the durations of an appointment's associated services — the
`func.sum(Service.duration * 60)` seconds aggregate of the conflict query,
in minutes. -/
def appointmentDuration (s : Store) (a : Appointment) : Int :=
  ((appointmentServices s a).map Service.duration).sum

/-- The `func.count(Service.id)` aggregate of the conflict query: how many
service rows the appointment joins to. -/
def appointmentServiceCount (s : Store) (a : Appointment) : Nat :=
  (appointmentServices s a).length

/-- One stored appointment satisfies the conflict query of
`create_appointment` (`app/services/appointments.py` lines 53–67): the row
joins at least one service (inner join / `count > 0` in `HAVING`), its
status is not `cancelled`, its stored date is `< appointment_end`, and its
stored date plus the sum of its service durations is `> appointment_start`.
The SQL comparisons read the stored timestamp as is. -/
def conflictsWith (s : Store) (startW endW : Int) (a : Appointment) : Bool :=
  a.status != "cancelled" &&
  a.date.wall < endW &&
  startW < a.date.wall + appointmentDuration s a &&
  0 < appointmentServiceCount s a

/-- The conflict query returns at least one row. -/
def hasConflict (s : Store) (startW endW : Int) : Bool :=
  s.appointments.any (conflictsWith s startW endW)

/-- Embedding of `app/services/appointments.py::create_appointment`.  `newId` is the
primary key the database would assign, `nowdt` the current time used for the
`created_at`/`updated_at` column defaults.  The notification side effect and
the final re-select of the committed row (returned unchanged) are not part
of the store transition. -/
def create_appointment (s : Store) (appointment : AppointmentCreate)
    (newId : Int) (nowdt : PyDateTime) : Except ApiError (Store × Appointment) :=
  if (s.clients.find? (fun c => c.id == appointment.client_id)).isNone then
    .error .notFoundClient
  else if appointment.service_ids.isEmpty then
    .error .invalidArgumentNoServices
  else
    let services_found := servicesByIds s appointment.service_ids
    if services_found.length != appointment.service_ids.length then
      .error .notFoundServices
    else
      let total_duration : Int := (services_found.map Service.duration).sum
      let appointment_start := make_naive appointment.date
      let appointment_end := make_naive (addMinutes appointment_start total_duration)
      if hasConflict s appointment_start.wall appointment_end.wall then
        .error .slotUnavailable
      else
        let db_appointment : Appointment :=
          { id := newId
            client_id := appointment.client_id
            date := make_naive appointment.date
            status := "pending"          -- column default `'pending'`
            created_at := nowdt
            updated_at := nowdt
            notes := appointment.notes
            service_ids := services_found.map Service.id }
        .ok ({ s with appointments := s.appointments ++ [db_appointment] },
             db_appointment)

/-- Embedding of `app/services/appointments.py::update_appointment`.  The patch is
applied with `setattr` per provided field: `date`, `notes` and `status` name
mapped columns and are persisted; `service_ids` and `cancelled` name no
mapped column or relationship of `Appointment`, so `setattr` stores them as
transient Python attributes that the commit never writes — the row and its
services association are unchanged by them. -/
def update_appointment (s : Store) (appointment_id : Int)
    (appointment_in : AppointmentUpdate) (current_user : UserRead) :
    Except ApiError (Store × Appointment) :=
  match s.appointments.find? (fun a => a.id == appointment_id) with
  | none => .error .notFoundAppointment
  | some appointment =>
    if !(current_user.role == "admin" || appointment.client_id == current_user.id) then
      .error .forbidden
    else
      let a' : Appointment :=
        { appointment with
          date := appointment_in.date.getD appointment.date
          notes := match appointment_in.notes with
                   | some v => v
                   | none => appointment.notes
          status := appointment_in.status.getD appointment.status }
      .ok ({ s with
             appointments := s.appointments.map
               (fun a => if a.id == appointment_id then a' else a) }, a')

/-- Embedding of `app/services/appointments.py::delete_appointment`.  Hard delete; the
`cancelations.appointment_id` foreign key is declared `ondelete='CASCADE'`,
so a cancelation row of the deleted appointment goes with it. -/
def delete_appointment (s : Store) (appointment_id : Int)
    (current_user : UserRead) : Except ApiError Store :=
  match s.appointments.find? (fun a => a.id == appointment_id) with
  | none => .error .notFoundAppointment
  | some appointment =>
    if !(current_user.role == "admin" || appointment.client_id == current_user.id) then
      .error .forbidden
    else
      .ok { s with
            appointments := s.appointments.filter (fun a => a.id != appointment_id)
            cancelations := s.cancelations.filter
              (fun c => c.appointment_id != appointment_id) }

/-- Embedding of `app/services/appointments.py::cancel_appointment`.  `nowdt` is
`datetime.now()` (naive in the runtime; `make_naive` is applied to it and to
the appointment's date before the lead-time comparison), `cancelId` the key
the database would assign to the new cancelation row.  The status flip and
the ledger insert are committed together; the second, redundant
`status = "cancelled"` assignment and commit change nothing. -/
def cancel_appointment (s : Store) (appointment_id : Int) (reason : String)
    (current_user : UserRead) (nowdt : PyDateTime) (cancelId : Int) :
    Except ApiError (Store × Cancelation) :=
  match s.appointments.find? (fun a => a.id == appointment_id) with
  | none => .error .notFoundAppointment
  | some appointment =>
    if !(current_user.role == "admin" || appointment.client_id == current_user.id) then
      .error .forbidden
    else if appointment.status == "cancelled" then
      .error .alreadyCancelled
    else if (make_naive appointment.date).wall - (make_naive nowdt).wall ≤ 3 * 60 then
      .error .tooLateToCancel
    else
      let cancelation : Cancelation :=
        { id := cancelId
          appointment_id := appointment.id
          reason := reason
          created_at := nowdt }
      .ok ({ s with
             appointments := s.appointments.map
               (fun a => if a.id == appointment_id then { a with status := "cancelled" } else a)
             cancelations := s.cancelations ++ [cancelation] },
           cancelation)

/-- Embedding of `app/services/appointments.py::complete_appointment`. -/
def complete_appointment (s : Store) (appointment_id : Int) :
    Except ApiError (Store × Appointment) :=
  match s.appointments.find? (fun a => a.id == appointment_id) with
  | none => .error .notFoundAppointment
  | some appointment =>
    if appointment.status == "completed" then
      .error .alreadyCompleted
    else if appointment.status == "cancelled" then
      .error .cannotCompleteCancelled
    else
      .ok ({ s with
             appointments := s.appointments.map
               (fun a => if a.id == appointment_id then { a with status := "completed" } else a) },
           { appointment with status := "completed" })

/-- Embedding of `app/api/routes/appointments.py::get_blocked_slots`: the `pending` or
`confirmed` appointments whose `client_id` differs from `user.id`, each
mapped to the interval from its date to its date plus the sum of its service
durations.  (The route's `isinstance(start, str)` re-parse only concerns
string-typed rows and is not modelled.) -/
def get_blocked_slots (s : Store) (user : UserRead) : List BlockedSlot :=
  (s.appointments.filter (fun a =>
      (a.status == "pending" || a.status == "confirmed") &&
      a.client_id != user.id)).map
    (fun a =>
      { start := a.date, stop := addMinutes a.date (appointmentDuration s a) })

/-- The actor is the client who owns the appointment: some client row owns
the appointment (`clients.id = appointments.client_id`) and belongs to the
actor's user account (`clients.user_id = user.id`).  Spec-side notion, used
to state the authorization claims; the source compares
`appointment.client_id == current_user.id` instead. -/
def isOwningClient (s : Store) (u : UserRead) (a : Appointment) : Bool :=
  s.clients.any (fun c => c.id == a.client_id && c.user_id == u.id)

/-- Replace every stored appointment date by its naive-UTC equivalent,
leaving everything else in place.  Spec-side construction for the
normalization claim. -/
def normalizeStoreDates (s : Store) : Store :=
  { s with
    appointments := s.appointments.map
      (fun a => { a with date := make_naive a.date }) }

/-! ### Helper lemmas -/

/-- Normalization always yields a naive datetime. -/
theorem make_naive_offset (dt : PyDateTime) : (make_naive dt).offset = none := by
  unfold make_naive
  cases h : dt.offset <;> simp [h]

/-- Normalization leaves a naive datetime unchanged. -/
theorem make_naive_of_naive (dt : PyDateTime) (h : dt.offset = none) :
    make_naive dt = dt := by
  unfold make_naive
  rw [h]

/-- Shifting an already-normalized datetime and normalizing again just adds
to the wall reading: the `make_naive` around `appointment_start +
timedelta(minutes = total_duration)` is the identity. -/
theorem make_naive_addMinutes_make_naive (dt : PyDateTime) (m : Int) :
    make_naive (addMinutes (make_naive dt) m) = ⟨(make_naive dt).wall + m, none⟩ := by
  cases hdt : dt.offset <;> simp [make_naive, addMinutes, hdt]

/-- Unfolding of the conflict query into the overlap predicate of the spec:
a conflict row is a stored appointment that is not cancelled, joins at least
one service, and whose `[S, S + Σdur)` interval meets `[startW, endW)` with
strict inequalities on both sides. -/
theorem hasConflict_iff (s : Store) (startW endW : Int) :
    hasConflict s startW endW = true ↔
      ∃ a ∈ s.appointments,
        a.status ≠ "cancelled" ∧
        a.date.wall < endW ∧
        startW < a.date.wall + appointmentDuration s a ∧
        0 < appointmentServiceCount s a := by
  simp [hasConflict, conflictsWith, List.any_eq_true, bne_iff_ne, and_assoc]

/-! ### Concrete fixtures (mirroring `seed.py`'s id layout: the client row
has id 1 and belongs to the user with id 2) -/

def epochDT : PyDateTime := ⟨0, none⟩

def manicureService : Service := ⟨1, "Manicura tradicional", none, 45, 20⟩

def decoService : Service := ⟨2, "Decoracion de unas", none, 30, 10⟩

def mariaClient : Client :=
  ⟨1, 2, "Maria Gomez", "maria@example.com", none, none, epochDT, epochDT⟩

def user1 : UserRead :=
  ⟨2, "user1@example.com", some "User One", true, "client", epochDT⟩

def adminUser : UserRead :=
  ⟨5, "admin@example.com", some "Admin User", true, "admin", epochDT⟩

def baseAppointment : Appointment :=
  ⟨10, 1, ⟨600, none⟩, "pending", epochDT, epochDT, none, [1]⟩

def baseStore : Store :=
  ⟨[mariaClient], [manicureService, decoService], [baseAppointment], []⟩

/-! ### C1 -/

/-- C1: with an existing client, a non-empty `service_ids` list that fully
resolves, `create` fails with `SlotUnavailable` iff some stored appointment
with status ≠ cancelled and at least one associated service has
`S < end_time` and `S + Σ own durations > start_time`, where
`end_time = start_time + Σ resolved durations`; boundary ties and
zero-service appointments yield no conflict (strict inequalities and the
service-count conjunct of the iff). -/
theorem create_conflict_iff_overlap (s : Store) (req : AppointmentCreate)
    (newId : Int) (nowdt : PyDateTime)
    (hclient : (s.clients.find? (fun c => c.id == req.client_id)).isSome = true)
    (hnonempty : req.service_ids ≠ [])
    (hresolve : (servicesByIds s req.service_ids).length = req.service_ids.length) :
    create_appointment s req newId nowdt = .error .slotUnavailable ↔
      ∃ a ∈ s.appointments,
        a.status ≠ "cancelled" ∧
        a.date.wall < (make_naive req.date).wall +
          ((servicesByIds s req.service_ids).map Service.duration).sum ∧
        (make_naive req.date).wall < a.date.wall + appointmentDuration s a ∧
        0 < appointmentServiceCount s a := by
  obtain ⟨c, hc⟩ := Option.isSome_iff_exists.mp hclient
  have hne : req.service_ids.isEmpty = false := by
    simp [List.isEmpty_iff, hnonempty]
  have hlen : ((servicesByIds s req.service_ids).length !=
      req.service_ids.length) = false := by
    simp [hresolve]
  unfold create_appointment
  rw [hc]
  simp only [Option.isNone_some, Bool.false_eq_true, if_false, hne, hlen,
    make_naive_addMinutes_make_naive]
  rw [← hasConflict_iff]
  cases h : hasConflict s (make_naive req.date).wall
      ((make_naive req.date).wall +
        ((servicesByIds s req.service_ids).map Service.duration).sum) <;>
    simp [h]

/-- C1 witness: in a store holding a pending 45-minute appointment at wall
minute 600, a 30-minute candidate at 630 hits the conflict predicate. -/
theorem create_conflict_iff_overlap_witness :
    create_appointment baseStore ⟨1, ⟨630, none⟩, none, [2]⟩ 11 epochDT =
        .error .slotUnavailable ↔
      ∃ a ∈ baseStore.appointments,
        a.status ≠ "cancelled" ∧
        a.date.wall < (make_naive ⟨630, none⟩).wall +
          ((servicesByIds baseStore [2]).map Service.duration).sum ∧
        (make_naive ⟨630, none⟩).wall < a.date.wall + appointmentDuration baseStore a ∧
        0 < appointmentServiceCount baseStore a :=
  create_conflict_iff_overlap baseStore ⟨1, ⟨630, none⟩, none, [2]⟩ 11 epochDT
    (by decide) (by decide) (by decide)

/-! ### C2 -/

/-- C2: when validation passes and no active appointment conflicts, `create`
appends a new appointment whose status is the column default `pending` and
whose associated services are exactly the resolved services, and returns it. -/
theorem create_success_persists_pending (s : Store) (req : AppointmentCreate)
    (newId : Int) (nowdt : PyDateTime)
    (hclient : (s.clients.find? (fun c => c.id == req.client_id)).isSome = true)
    (hnonempty : req.service_ids ≠ [])
    (hresolve : (servicesByIds s req.service_ids).length = req.service_ids.length)
    (hnoconf : hasConflict s (make_naive req.date).wall
        ((make_naive req.date).wall +
          ((servicesByIds s req.service_ids).map Service.duration).sum) = false) :
    ∃ appt : Appointment,
      create_appointment s req newId nowdt =
        .ok ({ s with appointments := s.appointments ++ [appt] }, appt) ∧
      appt.status = "pending" ∧
      appt.service_ids = (servicesByIds s req.service_ids).map Service.id ∧
      appt.client_id = req.client_id ∧
      appt.date = make_naive req.date ∧
      appt.notes = req.notes := by
  obtain ⟨c, hc⟩ := Option.isSome_iff_exists.mp hclient
  have hne : req.service_ids.isEmpty = false := by
    simp [List.isEmpty_iff, hnonempty]
  have hlen : ((servicesByIds s req.service_ids).length !=
      req.service_ids.length) = false := by
    simp [hresolve]
  refine ⟨{ id := newId, client_id := req.client_id, date := make_naive req.date,
            status := "pending", created_at := nowdt, updated_at := nowdt,
            notes := req.notes,
            service_ids := (servicesByIds s req.service_ids).map Service.id },
          ?_, rfl, rfl, rfl, rfl, rfl⟩
  unfold create_appointment
  rw [hc]
  simp only [Option.isNone_some, Bool.false_eq_true, if_false, hne, hlen,
    make_naive_addMinutes_make_naive, hnoconf]

/-- C2 witness: a back-to-back candidate at 645 after the 600–645
appointment is created in `pending` with the resolved service. -/
theorem create_success_persists_pending_witness :
    ∃ appt : Appointment,
      create_appointment baseStore ⟨1, ⟨645, none⟩, none, [2]⟩ 11 epochDT =
        .ok ({ baseStore with appointments := baseStore.appointments ++ [appt] }, appt) ∧
      appt.status = "pending" ∧
      appt.service_ids = (servicesByIds baseStore [2]).map Service.id ∧
      appt.client_id = 1 ∧
      appt.date = make_naive ⟨645, none⟩ ∧
      appt.notes = none :=
  create_success_persists_pending baseStore ⟨1, ⟨645, none⟩, none, [2]⟩ 11 epochDT
    (by decide) (by decide) (by decide) (by decide)

/-! ### C3 and C10: service resolution -/

/-- The ids of the rows returned by `Service.id.in_(ids)` are distinct,
because the `services` table has distinct primary keys. -/
theorem servicesByIds_map_id_nodup (s : Store) (ids : List Int)
    (hnodup : (s.services.map Service.id).Nodup) :
    ((servicesByIds s ids).map Service.id).Nodup :=
  hnodup.sublist ((List.filter_sublist _).map Service.id)

/-- Every id of a row returned by `Service.id.in_(ids)` is in `ids`, and the
row is a table row. -/
theorem servicesByIds_mem (s : Store) (ids : List Int) (x : Int)
    (hx : x ∈ (servicesByIds s ids).map Service.id) :
    x ∈ ids ∧ ∃ sv ∈ s.services, sv.id = x := by
  rw [List.mem_map] at hx
  obtain ⟨sv, hsv, rfl⟩ := hx
  rw [servicesByIds, List.mem_filter] at hsv
  exact ⟨by simpa using hsv.2, sv, hsv.1, rfl⟩

/-- If some requested id matches no service row, the query returns strictly
fewer rows than the request has ids. -/
theorem servicesByIds_length_lt_of_missing (s : Store) (ids : List Int)
    (hnodup : (s.services.map Service.id).Nodup)
    (i₀ : Int) (hmem : i₀ ∈ ids) (hmiss : ∀ sv ∈ s.services, sv.id ≠ i₀) :
    (servicesByIds s ids).length < ids.length := by
  have hnd := servicesByIds_map_id_nodup s ids hnodup
  have hsubset : (servicesByIds s ids).map Service.id ⊆ ids.dedup.erase i₀ := by
    intro x hx
    obtain ⟨hxid, sv, hsv, rfl⟩ := servicesByIds_mem s ids x hx
    exact (List.mem_erase_of_ne (hmiss sv hsv)).mpr (List.mem_dedup.mpr hxid)
  have h1 : (servicesByIds s ids).length ≤ (ids.dedup.erase i₀).length := by
    have := (hnd.subperm hsubset).length_le
    simpa using this
  have h2 : (ids.dedup.erase i₀).length = ids.dedup.length - 1 :=
    List.length_erase_of_mem (List.mem_dedup.mpr hmem)
  have h3 : 0 < ids.dedup.length :=
    List.length_pos_of_mem (List.mem_dedup.mpr hmem)
  have h4 : ids.dedup.length ≤ ids.length := ids.dedup_sublist.length_le
  omega

/-- With repeated ids the query returns at most one row per distinct id,
hence strictly fewer rows than the request has ids. -/
theorem servicesByIds_length_lt_of_dup (s : Store) (ids : List Int)
    (hnodup : (s.services.map Service.id).Nodup)
    (hdup : ¬ ids.Nodup) :
    (servicesByIds s ids).length < ids.length := by
  have hnd := servicesByIds_map_id_nodup s ids hnodup
  have hsubset : (servicesByIds s ids).map Service.id ⊆ ids.dedup := by
    intro x hx
    exact List.mem_dedup.mpr (servicesByIds_mem s ids x hx).1
  have h1 : (servicesByIds s ids).length ≤ ids.dedup.length := by
    have := (hnd.subperm hsubset).length_le
    simpa using this
  have h2 : ids.dedup.length < ids.length := by
    rcases Nat.lt_or_ge ids.dedup.length ids.length with h | h
    · exact h
    · exfalso
      have heq : ids.dedup.length = ids.length :=
        le_antisymm ids.dedup_sublist.length_le h
      have heql := ids.dedup_sublist.eq_of_length heq
      exact hdup (heql ▸ ids.nodup_dedup)
  omega

/-- C3: `create` fails `NotFound` for an absent client; with an existing
client it fails `InvalidArgument` on an empty `service_ids`; and with an
existing client it fails a single `NotFound` when any requested id resolves
to no service row. -/
theorem create_validation_errors (s : Store) (req : AppointmentCreate)
    (newId : Int) (nowdt : PyDateTime)
    (hnodup : (s.services.map Service.id).Nodup) :
    (s.clients.find? (fun c => c.id == req.client_id) = none →
      create_appointment s req newId nowdt = .error .notFoundClient) ∧
    ((s.clients.find? (fun c => c.id == req.client_id)).isSome = true →
      req.service_ids = [] →
      create_appointment s req newId nowdt = .error .invalidArgumentNoServices) ∧
    ((s.clients.find? (fun c => c.id == req.client_id)).isSome = true →
      (∃ i ∈ req.service_ids, ∀ sv ∈ s.services, sv.id ≠ i) →
      create_appointment s req newId nowdt = .error .notFoundServices) := by
  refine ⟨fun h => ?_, fun hsome hnil => ?_, fun hsome hmissing => ?_⟩
  · unfold create_appointment
    rw [h]
    simp
  · obtain ⟨c, hc⟩ := Option.isSome_iff_exists.mp hsome
    unfold create_appointment
    rw [hc, hnil]
    simp
  · obtain ⟨c, hc⟩ := Option.isSome_iff_exists.mp hsome
    obtain ⟨i₀, hi₀, hmiss⟩ := hmissing
    have hne : req.service_ids.isEmpty = false := by
      simp [List.isEmpty_iff, List.ne_nil_of_mem hi₀]
    have hlt := servicesByIds_length_lt_of_missing s req.service_ids hnodup i₀ hi₀ hmiss
    have hlen : ((servicesByIds s req.service_ids).length !=
        req.service_ids.length) = true :=
      bne_iff_ne.mpr (Nat.ne_of_lt hlt)
    unfold create_appointment
    rw [hc]
    simp [hne, hlen]

/-- C3 witness: unknown client id 9 → client `NotFound`; empty service list
→ `InvalidArgument`; unknown service id 7 → services `NotFound`. -/
theorem create_validation_errors_witness :
    create_appointment baseStore ⟨9, ⟨0, none⟩, none, [1]⟩ 21 epochDT =
        .error .notFoundClient ∧
    create_appointment baseStore ⟨1, ⟨0, none⟩, none, []⟩ 21 epochDT =
        .error .invalidArgumentNoServices ∧
    create_appointment baseStore ⟨1, ⟨0, none⟩, none, [7]⟩ 21 epochDT =
        .error .notFoundServices :=
  ⟨(create_validation_errors baseStore ⟨9, ⟨0, none⟩, none, [1]⟩ 21 epochDT
      (by decide)).1 (by decide),
   (create_validation_errors baseStore ⟨1, ⟨0, none⟩, none, []⟩ 21 epochDT
      (by decide)).2.1 (by decide) rfl,
   (create_validation_errors baseStore ⟨1, ⟨0, none⟩, none, [7]⟩ 21 epochDT
      (by decide)).2.2 (by decide) (by decide)⟩

/-- C10: a duplicated id in `service_ids` makes `create` fail the services
`NotFound` even though every id resolves, because the count of distinct
resolved rows is compared against the length of the requested list. -/
theorem create_duplicate_service_ids_fails (s : Store) (req : AppointmentCreate)
    (newId : Int) (nowdt : PyDateTime)
    (hnodup : (s.services.map Service.id).Nodup)
    (hclient : (s.clients.find? (fun c => c.id == req.client_id)).isSome = true)
    (hdup : ¬ req.service_ids.Nodup)
    (hall : ∀ i ∈ req.service_ids, ∃ sv ∈ s.services, sv.id = i) :
    create_appointment s req newId nowdt = .error .notFoundServices := by
  obtain ⟨c, hc⟩ := Option.isSome_iff_exists.mp hclient
  have hnil : req.service_ids ≠ [] := by
    intro h0
    rw [h0] at hdup
    exact hdup List.nodup_nil
  have hne : req.service_ids.isEmpty = false := by
    simp [List.isEmpty_iff, hnil]
  have hlt := servicesByIds_length_lt_of_dup s req.service_ids hnodup hdup
  have hlen : ((servicesByIds s req.service_ids).length !=
      req.service_ids.length) = true :=
    bne_iff_ne.mpr (Nat.ne_of_lt hlt)
  unfold create_appointment
  rw [hc]
  simp [hne, hlen]

/-- C10 witness: requesting the existing service 2 twice fails with the
services `NotFound`. -/
theorem create_duplicate_service_ids_fails_witness :
    create_appointment baseStore ⟨1, ⟨2000, none⟩, none, [2, 2]⟩ 21 epochDT =
      .error .notFoundServices :=
  create_duplicate_service_ids_fails baseStore ⟨1, ⟨2000, none⟩, none, [2, 2]⟩
    21 epochDT (by decide) (by decide) (by decide) (by decide)

/-! ### C4 -/

/-- C4: for an existing appointment and an authorized actor, `cancel` fails
`AlreadyCancelled` on a cancelled appointment; otherwise it fails
`TooLateToCancel` exactly when `date − now ≤ 3` hours (the boundary itself
is too late); otherwise it flips the status to `cancelled` and appends a
`Cancelation` carrying the reason and the appointment's id, both in the one
returned store. -/
theorem cancel_behavior (s : Store) (appointment_id : Int) (reason : String)
    (u : UserRead) (nowdt : PyDateTime) (cancelId : Int) (appt : Appointment)
    (hfind : s.appointments.find? (fun a => a.id == appointment_id) = some appt)
    (hauth : u.role = "admin" ∨ appt.client_id = u.id) :
    (appt.status = "cancelled" →
      cancel_appointment s appointment_id reason u nowdt cancelId =
        .error .alreadyCancelled) ∧
    (appt.status ≠ "cancelled" →
      (cancel_appointment s appointment_id reason u nowdt cancelId =
          .error .tooLateToCancel ↔
        (make_naive appt.date).wall - (make_naive nowdt).wall ≤ 3 * 60)) ∧
    (appt.status ≠ "cancelled" →
      3 * 60 < (make_naive appt.date).wall - (make_naive nowdt).wall →
      ∃ c : Cancelation, ∃ s' : Store,
        cancel_appointment s appointment_id reason u nowdt cancelId = .ok (s', c) ∧
        c.reason = reason ∧
        c.appointment_id = appt.id ∧
        { appt with status := "cancelled" } ∈ s'.appointments ∧
        s'.cancelations = s.cancelations ++ [c]) := by
  have hok : (u.role == "admin" || appt.client_id == u.id) = true := by
    rcases hauth with h | h <;> simp [h]
  have happt : appt ∈ s.appointments := List.mem_of_find?_eq_some hfind
  have hid : (appt.id == appointment_id) = true := by
    have := List.find?_some hfind
    simpa using this
  refine ⟨fun hcan => ?_, fun hncan => ?_, fun hncan hlead => ?_⟩
  · unfold cancel_appointment
    rw [hfind]
    simp [hok, hcan]
  · have hcan : (appt.status == "cancelled") = false := beq_eq_false_iff_ne.mpr hncan
    unfold cancel_appointment
    rw [hfind]
    by_cases hle : (make_naive appt.date).wall - (make_naive nowdt).wall ≤ 3 * 60 <;>
      simp [hok, hcan, hle]
  · have hcan : (appt.status == "cancelled") = false := beq_eq_false_iff_ne.mpr hncan
    have hle : ¬ ((make_naive appt.date).wall - (make_naive nowdt).wall ≤ 3 * 60) :=
      not_le.mpr hlead
    refine ⟨⟨cancelId, appt.id, reason, nowdt⟩,
      { s with
        appointments := s.appointments.map
          (fun a => if a.id == appointment_id then { a with status := "cancelled" } else a)
        cancelations := s.cancelations ++ [⟨cancelId, appt.id, reason, nowdt⟩] },
      ?_, rfl, rfl, ?_, rfl⟩
    · unfold cancel_appointment
      rw [hfind]
      simp only [hok, Bool.not_true, Bool.false_eq_true, if_false, hcan, if_neg hle]
    · have : ({ appt with status := "cancelled" } : Appointment) =
          (fun a => if a.id == appointment_id then { a with status := "cancelled" } else a) appt := by
        simp [hid]
      rw [this]
      exact List.mem_map_of_mem _ happt

/-- C4 witness: the admin cancels the pending appointment at wall minute 600
with "now" at minute 0 (lead time 10 hours): the status flips and the ledger
row carries the reason. -/
theorem cancel_behavior_witness :
    ∃ c : Cancelation, ∃ s' : Store,
      cancel_appointment baseStore 10 "sick" adminUser epochDT 31 = .ok (s', c) ∧
      c.reason = "sick" ∧
      c.appointment_id = baseAppointment.id ∧
      { baseAppointment with status := "cancelled" } ∈ s'.appointments ∧
      s'.cancelations = baseStore.cancelations ++ [c] :=
  (cancel_behavior baseStore 10 "sick" adminUser epochDT 31 baseAppointment
    rfl (Or.inl rfl)).2.2 (by decide) (by decide)

/-! ### C5 -/

/-- C5: `complete` fails `NotFound` when the appointment is absent,
`AlreadyCompleted` when its status is `completed`, `CannotCompleteCancelled`
(not `AlreadyCompleted`) when it is `cancelled`, and otherwise sets the
status to `completed` and returns the appointment. -/
theorem complete_behavior (s : Store) (appointment_id : Int) :
    (s.appointments.find? (fun a => a.id == appointment_id) = none →
      complete_appointment s appointment_id = .error .notFoundAppointment) ∧
    (∀ appt, s.appointments.find? (fun a => a.id == appointment_id) = some appt →
      (appt.status = "completed" →
        complete_appointment s appointment_id = .error .alreadyCompleted) ∧
      (appt.status = "cancelled" →
        complete_appointment s appointment_id = .error .cannotCompleteCancelled) ∧
      (appt.status ≠ "completed" → appt.status ≠ "cancelled" →
        ∃ s' : Store,
          complete_appointment s appointment_id =
            .ok (s', { appt with status := "completed" }) ∧
          { appt with status := "completed" } ∈ s'.appointments)) := by
  refine ⟨fun h => ?_, fun appt hfind => ⟨fun hcomp => ?_, fun hcanc => ?_,
    fun hncomp hncanc => ?_⟩⟩
  · unfold complete_appointment
    rw [h]
  · unfold complete_appointment
    rw [hfind]
    simp [hcomp]
  · have hncomp : (appt.status == "completed") = false := by
      rw [hcanc]
      decide
    unfold complete_appointment
    rw [hfind]
    simp [hncomp, hcanc]
  · have h1 : (appt.status == "completed") = false := beq_eq_false_iff_ne.mpr hncomp
    have h2 : (appt.status == "cancelled") = false := beq_eq_false_iff_ne.mpr hncanc
    have happt : appt ∈ s.appointments := List.mem_of_find?_eq_some hfind
    have hid : (appt.id == appointment_id) = true := by
      have := List.find?_some hfind
      simpa using this
    refine ⟨{ s with
        appointments := s.appointments.map
          (fun a => if a.id == appointment_id then { a with status := "completed" } else a) },
      ?_, ?_⟩
    · unfold complete_appointment
      rw [hfind]
      simp [h1, h2]
    · have : ({ appt with status := "completed" } : Appointment) =
          (fun a => if a.id == appointment_id then { a with status := "completed" } else a) appt := by
        simp [hid]
      rw [this]
      exact List.mem_map_of_mem _ happt

/-- C5 witness: completing the pending appointment 10 succeeds and flips its
status; completing the absent appointment 99 is `NotFound`. -/
theorem complete_behavior_witness :
    complete_appointment baseStore 99 = .error .notFoundAppointment ∧
    ∃ s' : Store,
      complete_appointment baseStore 10 =
        .ok (s', { baseAppointment with status := "completed" }) ∧
      { baseAppointment with status := "completed" } ∈ s'.appointments :=
  ⟨(complete_behavior baseStore 99).1 rfl,
   ((complete_behavior baseStore 10).2 baseAppointment rfl).2.2
     (by decide) (by decide)⟩

/-! ### C6 -/

/-- A stored appointment whose `date` kept a +02:00 offset: wall reading 600,
naive-UTC equivalent 480. -/
def awareAppointment : Appointment :=
  ⟨10, 1, ⟨600, some 120⟩, "pending", epochDT, epochDT, none, [1]⟩

def awareStore : Store :=
  ⟨[mariaClient], [manicureService, decoService], [awareAppointment], []⟩

/-- A 30-minute candidate at wall minute 470: its window [470, 500) meets
the aware appointment's naive-UTC window [480, 525) but not its raw wall
window [600, 645). -/
def c6req : AppointmentCreate := ⟨1, ⟨470, none⟩, none, [2]⟩

/-- C6 counterexample: the conflict check does not normalize stored dates —
on a store holding one zone-aware date the decision differs from the
decision on the same store with that date replaced by its naive-UTC
equivalent (no conflict raw, conflict after normalization). -/
theorem conflict_normalization_counterexample :
    awareAppointment.date.offset = some 120 ∧
    awareAppointment ∈ awareStore.appointments ∧
    create_appointment (normalizeStoreDates awareStore) c6req 11 epochDT =
      .error .slotUnavailable ∧
    create_appointment awareStore c6req 11 epochDT ≠ .error .slotUnavailable :=
  ⟨rfl, by decide, rfl, fun h => Except.noConfusion h⟩

/-- C6 amended: `make_naive` is applied to the candidate's start and end
only; stored dates enter the comparison as stored.  Hence whenever every
stored date is already naive the conflict decision (and the whole `create`
result) is unchanged by naive-UTC normalization of the store. -/
theorem create_invariant_on_naive_store (s : Store) (req : AppointmentCreate)
    (newId : Int) (nowdt : PyDateTime)
    (hnaive : ∀ a ∈ s.appointments, a.date.offset = none) :
    create_appointment (normalizeStoreDates s) req newId nowdt =
      create_appointment s req newId nowdt := by
  have h1 : ∀ a ∈ s.appointments,
      (fun a => { a with date := make_naive a.date }) a = (fun a => a) a := by
    intro a ha
    simp [make_naive_of_naive a.date (hnaive a ha)]
  have hid : normalizeStoreDates s = s := by
    unfold normalizeStoreDates
    rw [List.map_congr_left h1, List.map_id']
  rw [hid]

/-- C6 witness: on the all-naive base store the `create` outcome is
invariant under store-date normalization. -/
theorem create_invariant_on_naive_store_witness :
    create_appointment (normalizeStoreDates baseStore) ⟨1, ⟨630, none⟩, none, [2]⟩
        11 epochDT =
      create_appointment baseStore ⟨1, ⟨630, none⟩, none, [2]⟩ 11 epochDT :=
  create_invariant_on_naive_store baseStore ⟨1, ⟨630, none⟩, none, [2]⟩ 11 epochDT
    (by decide)

/-! ### C7 -/

/-- C7 (code bug): `get_blocked_slots` filters with
`Appointment.client_id != user.id`, comparing a client-table id against a
user-table id.  In the seed layout (client row 1 owned by user 2) the
requesting user's own pending appointment survives the filter and is
returned as a blocked interval, although the claim requires the requester's
own appointments to be excluded. -/
theorem blocked_slots_include_own_appointment :
    mariaClient ∈ baseStore.clients ∧
    mariaClient.user_id = user1.id ∧
    baseAppointment.client_id = mariaClient.id ∧
    baseAppointment.status = "pending" ∧
    get_blocked_slots baseStore user1 =
      [{ start := ⟨600, none⟩, stop := ⟨645, none⟩ }] :=
  ⟨by decide, rfl, rfl, rfl, rfl⟩

/-! ### C8 -/

/-- C8 (code bug): the update/delete/cancel authorization check compares
`appointment.client_id` with `current_user.id` — a client-table id against
a user-table id.  With the seed layout the actor IS the owning client
(their client row owns the appointment) and is not an admin, yet all three
operations fail with `Forbidden`, contradicting the claim that an owning
client never receives `Forbidden`. -/
theorem auth_rejects_owning_client :
    isOwningClient baseStore user1 baseAppointment = true ∧
    user1.role ≠ "admin" ∧
    update_appointment baseStore 10 ⟨none, none, none, none, none⟩ user1 =
      .error .forbidden ∧
    delete_appointment baseStore 10 user1 = .error .forbidden ∧
    cancel_appointment baseStore 10 "any reason" user1 epochDT 31 =
      .error .forbidden :=
  ⟨rfl, by decide, rfl, rfl, rfl⟩

/-! ### C9 -/

/-- A patch that only provides `service_ids`. -/
def c9patch : AppointmentUpdate := ⟨none, none, none, some [2], none⟩

/-- C9 counterexample: an authorized update providing `service_ids = [2]`
succeeds but leaves the appointment's associated services at `[1]` — the
store and the returned appointment are unchanged — refuting the claim that
providing `service_ids` changes the appointment's services. -/
theorem update_service_ids_not_applied_counterexample :
    c9patch.service_ids = some [2] ∧
    update_appointment baseStore 10 c9patch adminUser = .ok (baseStore, baseAppointment) ∧
    baseAppointment.service_ids = [1] :=
  ⟨rfl, rfl, rfl⟩

/-- C9 amended: an authorized update applies exactly the provided fields
among `date`, `notes`, `status` to the stored appointment; `service_ids`
and `cancelled` from the patch are written only as transient attributes and
never persisted, so the services association — like `id`, `client_id`,
`created_at` and every unprovided field — is unchanged. -/
theorem update_applies_column_fields (s : Store) (appointment_id : Int)
    (p : AppointmentUpdate) (u : UserRead) (appt : Appointment)
    (hfind : s.appointments.find? (fun a => a.id == appointment_id) = some appt)
    (hauth : u.role = "admin" ∨ appt.client_id = u.id) :
    ∃ a' : Appointment,
      update_appointment s appointment_id p u =
        .ok ({ s with
               appointments := s.appointments.map
                 (fun a => if a.id == appointment_id then a' else a) }, a') ∧
      a'.date = p.date.getD appt.date ∧
      a'.notes = (match p.notes with | some v => v | none => appt.notes) ∧
      a'.status = p.status.getD appt.status ∧
      a'.id = appt.id ∧
      a'.client_id = appt.client_id ∧
      a'.created_at = appt.created_at ∧
      a'.updated_at = appt.updated_at ∧
      a'.service_ids = appt.service_ids := by
  have hok : (u.role == "admin" || appt.client_id == u.id) = true := by
    rcases hauth with h | h <;> simp [h]
  refine ⟨{ appt with
            date := p.date.getD appt.date
            notes := match p.notes with | some v => v | none => appt.notes
            status := p.status.getD appt.status },
    ?_, rfl, rfl, rfl, rfl, rfl, rfl, rfl, rfl⟩
  unfold update_appointment
  rw [hfind]
  simp only [hok, Bool.not_true, Bool.false_eq_true, if_false]

/-- C9 witness: a patch providing all five fields moves `date`, `notes` and
`status` and leaves the services association (and the identity fields)
untouched. -/
theorem update_applies_column_fields_witness :
    ∃ a' : Appointment,
      update_appointment baseStore 10
          ⟨some ⟨700, none⟩, some (some "new note"), some "confirmed", some [2], some true⟩
          adminUser =
        .ok ({ baseStore with
               appointments := baseStore.appointments.map
                 (fun a => if a.id == 10 then a' else a) }, a') ∧
      a'.date = (some (⟨700, none⟩ : PyDateTime)).getD baseAppointment.date ∧
      a'.notes = (match some (some "new note") with
                  | some v => v
                  | none => baseAppointment.notes) ∧
      a'.status = (some "confirmed").getD baseAppointment.status ∧
      a'.id = baseAppointment.id ∧
      a'.client_id = baseAppointment.client_id ∧
      a'.created_at = baseAppointment.created_at ∧
      a'.updated_at = baseAppointment.updated_at ∧
      a'.service_ids = baseAppointment.service_ids :=
  update_applies_column_fields baseStore 10
    ⟨some ⟨700, none⟩, some (some "new note"), some "confirmed", some [2], some true⟩
    adminUser baseAppointment rfl (Or.inl rfl)
